import Mathlib

/-!
Verification of the browser control plane (openclaw): shallow embedding of
the target resolver, tab lifecycle, page event recorder, connection bridge
and process lifecycle manager, with theorems for the specified properties.
-/

namespace Openclaw

/-- A tab descriptor as produced by `listTabs` (server-context.ts `BrowserTab`):
`targetId`, `title`, `url`, optional `wsUrl` (webSocketDebuggerUrl) and
optional `type`. -/
structure BrowserTab where
  targetId : String
  title : String
  url : String
  wsUrl : Option String
  type : Option String
deriving DecidableEq

/-- Result shape of the target resolver (`{ok: true, targetId}` or
`{ok: false, reason: "ambiguous" | not found}` as consumed by
`ensureTabAvailable` / `focusTab` / `closeTab`). -/
inductive ResolveResult where
  | ok (targetId : String)
  | ambiguous
  | notFound
deriving DecidableEq

/-- Character-list prefix test; executable form of JS
`String.prototype.startsWith` over the decoded characters. -/
def charsPrefix : List Char → List Char → Bool
  | [], _ => true
  | _ :: _, [] => false
  | a :: as, b :: bs => a == b && charsPrefix as bs

/-- `strStartsWith s p` holds when the string `s` starts with `p`
(JS `s.startsWith(p)`). -/
def strStartsWith (s p : String) : Bool := charsPrefix p.data s.data

/-- Modelled from the spec: `resolveTargetIdFromTabs` (target-id.ts is not
among the provided sources; only its callers are). Spec §4.2: if the
identifier matches a tab id exactly, return that tab; else collect all tabs
whose id starts with the identifier: exactly one yields it, more than one is
`Ambiguous`, zero is `NotFound`. Empty/absent identifiers are handled by the
callers before invoking the resolver. -/
def resolveTargetIdFromTabs (targetId : String) (tabs : List BrowserTab) :
    ResolveResult :=
  if tabs.any (fun t => t.targetId == targetId) then .ok targetId
  else
    match tabs.filter (fun t => strStartsWith t.targetId targetId) with
    | [t] => .ok t.targetId
    | [] => .notFound
    | _ => .ambiguous

/-- Outcome of the tab-choosing step inside `ensureTabAvailable`
(server-context.ts lines 193-202): the `chosen` value is either the
`"AMBIGUOUS"` marker, `null`, or a tab. -/
inductive ChosenTab where
  | ambiguous
  | missing
  | tab (t : BrowserTab)
deriving DecidableEq

/-- The `chosen` computation of `ensureTabAvailable`: with a (non-empty)
identifier, run the resolver and look the resolved id up in the listing;
with an absent identifier take `tabs.at(0)`. -/
def chooseTab (targetId : Option String) (tabs : List BrowserTab) : ChosenTab :=
  match targetId with
  | some tid =>
    match resolveTargetIdFromTabs tid tabs with
    | .ambiguous => .ambiguous
    | .notFound => .missing
    | .ok rid =>
      match tabs.find? (fun t => t.targetId == rid) with
      | some t => .tab t
      | none => .missing
  | none =>
    match tabs.head? with
    | some t => .tab t
    | none => .missing

/-- Error outcomes of tab resolution as thrown by `ensureTabAvailable`,
`focusTab` and `closeTab` and mapped by `mapTabError` (409 / 404). -/
inductive TabError where
  | ambiguous
  | notFound
deriving DecidableEq

/-- The resolution tail of `ensureTabAvailable` (server-context.ts lines
193-208): choose a tab, throw `"ambiguous target id prefix"` on the
ambiguity marker, and throw `"tab not found"` when no tab was chosen or the
`wsUrl` of the chosen tab is absent/empty (JS falsiness of the optional chain). -/
def ensureTabResolve (targetId : Option String) (tabs : List BrowserTab) :
    Except TabError BrowserTab :=
  match chooseTab targetId tabs with
  | .ambiguous => .error .ambiguous
  | .missing => .error .notFound
  | .tab t => if t.wsUrl.getD "" == "" then .error .notFound else .ok t

/-- `ensureTabAvailable` (server-context.ts lines 185-209) after
`ensureBrowserAvailable` succeeded: `tabs1` is the first listing; when it is
empty an `about:blank` tab is opened (the returned flag records this);
`tabs2` is the always-taken second listing against which resolution runs. -/
def ensureTabAvailable (targetId : Option String)
    (tabs1 tabs2 : List BrowserTab) : Bool × Except TabError BrowserTab :=
  (tabs1.isEmpty, ensureTabResolve targetId tabs2)

/-- The tracked browser process handle. `RunningChrome` lives in chrome.ts,
which is not among the provided sources; the control-plane code uses its
`pid` field (plus `exe`/`userDataDir` for status display, irrelevant here). -/
structure RunningChrome where
  pid : Nat
deriving DecidableEq

/-- The mutable server state (server-context.ts `BrowserServerState`),
restricted to the fields the claims touch: ports, the nullable process
handle and the resolved `attachOnly` flag. -/
structure BrowserServerState where
  port : Nat
  cdpPort : Nat
  running : Option RunningChrome
  attachOnly : Bool
deriving DecidableEq

/-- Combined mutable state of the control plane: the module-level `state`
of server.ts (null before start) and the module-level `cached` Playwright
connection record of pw-session.ts, identified by its endpoint. -/
structure ControlPlaneState where
  serverState : Option BrowserServerState
  pwCached : Option String
deriving DecidableEq

/-- Errors of the lifecycle paths: `state()` throws
`"Browser server not started"` when the server state is null. -/
inductive LifecycleError where
  | notStarted
deriving DecidableEq

/-- `stopRunningBrowser` (server-context.ts lines 241-247): `state()` (throws
when unset); `{stopped: false}` when no process handle is tracked; otherwise
stop the process, clear the handle and return `{stopped: true}`. Note that
the cached Playwright connection is left untouched. -/
def stopRunningBrowser (st : ControlPlaneState) :
    Except LifecycleError (Bool × ControlPlaneState) :=
  match st.serverState with
  | none => .error .notStarted
  | some s =>
    match s.running with
    | none => .ok (false, st)
    | some _ =>
      .ok (true, { st with serverState := some { s with running := none } })

/-- `closePlaywrightBrowserConnection` (pw-session.ts lines 520-525): drop
the cached connection record and close the underlying browser handle. -/
def closePlaywrightBrowserConnection (st : ControlPlaneState) :
    ControlPlaneState :=
  { st with pwCached := none }

/-- `stopBrowserControlServer` (server.ts lines 78-103): no-op when the
server state is unset; otherwise stop the running browser (errors are logged
and swallowed), close the HTTP server, null the state and tear down the
cached Playwright connection. -/
def stopBrowserControlServer (st : ControlPlaneState) : ControlPlaneState :=
  match st.serverState with
  | none => st
  | some _ =>
    let st1 :=
      match stopRunningBrowser st with
      | .ok (_, next) => next
      | .error _ => st
    closePlaywrightBrowserConnection { st1 with serverState := none }

/-- Probe timeout used by `isReachable` when no argument is given
(server-context.ts line 161: `timeoutMs = 300`). -/
def defaultReachableTimeoutMs : Nat := 300

/-- `isReachable` (server-context.ts lines 161-164): read the server state
via `state()` — which throws when unset — then probe the CDP port.
`isChromeReachable` lives in chrome.ts, which is not among the provided
sources; modelled from the spec ("performs a lightweight protocol probe with
a bounded timeout; returns a boolean, never throws") as the total boolean
function `probe` over port and timeout. -/
def isReachable (st : ControlPlaneState) (timeoutMs : Nat)
    (probe : Nat → Nat → Bool) : Except LifecycleError Bool :=
  match st.serverState with
  | none => .error .notStarted
  | some s => .ok (probe s.cdpPort timeoutMs)

/-- Errors of `ensureBrowserAvailable`: the `state()` throw and the
attach-only refusal (`"Browser attachOnly is enabled and no browser is
running."`, named `AttachOnlyViolation` in the spec). -/
inductive EnsureError where
  | notStarted
  | attachOnlyViolation
deriving DecidableEq

/-- Successful outcomes of `ensureBrowserAvailable`: already reachable
(no-op) or a browser process was launched. -/
inductive EnsureOutcome where
  | noop
  | launched
deriving DecidableEq

/-- `ensureBrowserAvailable` (server-context.ts lines 166-183): no-op when
the probe succeeds within the default timeout; fail with the attach-only
error when `attachOnly` is configured; otherwise launch a process and
register the pid-guarded exit observer (`exitObserver` below). -/
def ensureBrowserAvailable (st : ControlPlaneState)
    (probe : Nat → Nat → Bool) : Except EnsureError EnsureOutcome :=
  match st.serverState with
  | none => .error .notStarted
  | some s =>
    if probe s.cdpPort defaultReachableTimeoutMs then .ok .noop
    else if s.attachOnly then .error .attachOnlyViolation
    else .ok .launched

/-- The `exit` observer registered on a launched process (server-context.ts
lines 177-182): read the live state and clear the handle only when the
pid of the currently tracked handle equals the pid of the exited process. -/
def exitObserver (launchedPid : Nat) (st : ControlPlaneState) :
    ControlPlaneState :=
  match st.serverState with
  | none => st
  | some s =>
    match s.running with
    | none => st
    | some r =>
      if r.pid == launchedPid then
        { st with serverState := some { s with running := none } }
      else st

/-- State of the module-level connection memo of pw-session.ts: the `cached`
record (endpoint of the owned connection), the `connecting` in-flight
attempt marker with the endpoint it is for, and a count of underlying
`connectOverCDP` invocations. -/
structure ConnState where
  cached : Option String
  connecting : Bool
  connectingEndpoint : Option String
  connectCalls : Nat
deriving DecidableEq

/-- What a call to `connectBrowser` did for its caller. -/
inductive ConnectOutcome where
  | cachedHit
  | joinedInflight
  | startedAttempt
deriving DecidableEq

/-- A step of `connectBrowser` (pw-session.ts lines 447-467) up to its first
suspension: return the cached record when its endpoint matches; await the
in-flight attempt when one exists; otherwise start a new `connectOverCDP`
attempt (counted) and mark it in flight. -/
def connectBrowser (s : ConnState) (endpoint : String) :
    ConnState × ConnectOutcome :=
  if s.cached == some endpoint then (s, .cachedHit)
  else if s.connecting then (s, .joinedInflight)
  else
    ({ s with
        connecting := true
        connectingEndpoint := some endpoint
        connectCalls := s.connectCalls + 1 },
      .startedAttempt)

/-- Resolution of the in-flight attempt (the then/finally continuation of
`connectBrowser`): cache the connected record and clear the marker. -/
def connectResolve (s : ConnState) : ConnState :=
  { s with
      cached := s.connectingEndpoint
      connecting := false
      connectingEndpoint := none }

/-- The idle module state: no cached record, no attempt in flight. -/
def initialConnState : ConnState := ⟨none, false, none, 0⟩

/-- Number of connection records held for a given endpoint (the module keeps
a single nullable `cached` slot). -/
def connectionRecordsFor (s : ConnState) (endpoint : String) : Nat :=
  if s.cached == some endpoint then 1 else 0

/-- Console message location (pw-session.ts `BrowserConsoleMessage`). -/
structure ConsoleLocation where
  url : Option String
  lineNumber : Option Nat
  columnNumber : Option Nat
deriving DecidableEq

/-- A recorded console entry `{type, text, timestamp, location}`. -/
structure BrowserConsoleMessage where
  type : String
  text : String
  timestamp : String
  location : Option ConsoleLocation
deriving DecidableEq

/-- A recorded network entry; `status`/`ok`/`fromCache` are filled in by the
`requestfinished` listener and `failureText` by `requestfailed`. -/
structure BrowserNetworkRequest where
  url : String
  method : String
  resourceType : Option String
  status : Option Nat
  ok : Option Bool
  fromCache : Option Bool
  failureText : Option String
  timestamp : String
deriving DecidableEq

/-- Cap on the console history (pw-session.ts line 365). -/
def MAX_CONSOLE_MESSAGES : Nat := 500

/-- Cap on the network history (pw-session.ts line 366). -/
def MAX_NETWORK_REQUESTS : Nat := 1000

/-- Per-page runtime state (pw-session.ts `PageState`). Network entries are
tagged with a serial standing in for JS object identity, since the entry
stored in `network` and the one indexed in `requestMap` are the same object
and the finished/failed listeners mutate it through the map. `requestMap`
maps a request identity to the serial of its entry. -/
structure PageState where
  console : List BrowserConsoleMessage
  network : List (Nat × BrowserNetworkRequest)
  requestMap : List (Nat × Nat)
  nextSerial : Nat
deriving DecidableEq

/-- The state `ensurePageState` creates on first observation of a page. -/
def initialPageState : PageState := ⟨[], [], [], 0⟩

/-- The `console` listener (pw-session.ts lines 388-397): push the entry,
then shift the oldest one off when the length exceeds the cap. -/
def onConsoleMessage (s : PageState) (m : BrowserConsoleMessage) :
    PageState :=
  let c := s.console ++ [m]
  { s with console := if MAX_CONSOLE_MESSAGES < c.length then c.tail else c }

/-- The fresh entry built by the `request` listener. -/
def mkRequestEntry (url method : String) (resourceType : Option String)
    (timestamp : String) : BrowserNetworkRequest :=
  ⟨url, method, resourceType, none, none, none, none, timestamp⟩

/-- The `request` listener (pw-session.ts lines 398-408): push the entry,
index it by request identity, then shift the oldest entry off when the
length exceeds the cap. -/
def onRequest (s : PageState) (reqId : Nat) (url method : String)
    (resourceType : Option String) (timestamp : String) : PageState :=
  let n := s.network ++ [(s.nextSerial, mkRequestEntry url method resourceType timestamp)]
  { console := s.console
    network := if MAX_NETWORK_REQUESTS < n.length then n.tail else n
    requestMap :=
      s.requestMap.filter (fun p => p.1 != reqId) ++ [(reqId, s.nextSerial)]
    nextSerial := s.nextSerial + 1 }

/-- Mutate the (shared) entry with the given serial in place. -/
def annotateSerial (network : List (Nat × BrowserNetworkRequest))
    (serial : Nat) (f : BrowserNetworkRequest → BrowserNetworkRequest) :
    List (Nat × BrowserNetworkRequest) :=
  network.map (fun p => if p.1 == serial then (p.1, f p.2) else p)

/-- The `requestfinished` listener (pw-session.ts lines 409-419): look up the
indexed entry (no-op when absent), annotate it with status/ok/fromCache when
a response is available, and remove it from the index. -/
def onRequestFinished (s : PageState) (reqId : Nat)
    (response : Option (Nat × Bool × Bool)) : PageState :=
  match s.requestMap.find? (fun p => p.1 == reqId) with
  | none => s
  | some entry =>
    let network :=
      match response with
      | some (status, okFlag, fromCache) =>
        annotateSerial s.network entry.2 (fun e =>
          { e with status := some status, ok := some okFlag,
                   fromCache := some fromCache })
      | none => s.network
    { s with
        network := network,
        requestMap := s.requestMap.filter (fun p => p.1 != reqId) }

/-- The `requestfailed` listener (pw-session.ts lines 420-425): look up the
indexed entry (no-op when absent), record the failure text, and remove it
from the index. -/
def onRequestFailed (s : PageState) (reqId : Nat)
    (failureText : Option String) : PageState :=
  match s.requestMap.find? (fun p => p.1 == reqId) with
  | none => s
  | some entry =>
    { s with
        network :=
          annotateSerial s.network entry.2 (fun e =>
            { e with failureText := failureText }),
        requestMap := s.requestMap.filter (fun p => p.1 != reqId) }

/-- Events delivered to an observed page, as seen by the listeners that
`ensurePageState` attaches. The page `close` event discards the whole state
and is not part of a history run. -/
inductive PageEvent where
  | consoleMessage (m : BrowserConsoleMessage)
  | request (reqId : Nat) (url method : String)
      (resourceType : Option String) (timestamp : String)
  | requestFinished (reqId : Nat) (response : Option (Nat × Bool × Bool))
  | requestFailed (reqId : Nat) (failureText : Option String)

/-- Dispatch one event to the matching listener. -/
def pageStep (s : PageState) (e : PageEvent) : PageState :=
  match e with
  | .consoleMessage m => onConsoleMessage s m
  | .request reqId url method resourceType timestamp =>
    onRequest s reqId url method resourceType timestamp
  | .requestFinished reqId response => onRequestFinished s reqId response
  | .requestFailed reqId failureText => onRequestFailed s reqId failureText

/-- Run a sequence of events against a freshly observed page. -/
def runPageEvents (events : List PageEvent) : PageState :=
  events.foldl pageStep initialPageState

/-- A tab descriptor returned by the raw `/json/new` endpoint (the
`CdpTarget` shape in `openTab`, server-context.ts lines 133-139). -/
structure CdpTarget where
  id : Option String
  title : Option String
  url : Option String
  webSocketDebuggerUrl : Option String
  type : Option String
deriving DecidableEq

/-- Outcome of the `PUT /json/new` request: a parsed body, the HTTP 405
method-not-supported rejection, or any other failure. -/
inductive PutOutcome where
  | ok (t : CdpTarget)
  | http405
  | failed
deriving DecidableEq

/-- Calls `openTab` issues against the browser, in order. -/
inductive TabCall where
  | rawCreate (url : String)
  | putNew (endpoint : String)
  | getNew (endpoint : String)
deriving DecidableEq

/-- Environment an `openTab` run interacts with: the result of the raw
`createTargetViaCdp` call (`none` models its rejection, caught to `null`),
the successive poll listings (a `listTabs` failure is caught to `[]`), the
`Date.now()` readings (`timeAt 0` sets the deadline, `timeAt (k+1)` is the
guard reading of iteration `k`), the REST responses, and the
`encodeURIComponent`-encoded url (a JS builtin left abstract). -/
structure OpenTabEnv where
  cdpCreate : Option String
  listings : Nat → List BrowserTab
  timeAt : Nat → Nat
  putResult : PutOutcome
  getResult : Option CdpTarget
  encodedUrl : String

/-- `openTab` polls for up to 2000ms (server-context.ts line 121). -/
def POLL_DEADLINE_MS : Nat := 2000

/-- `openTab` sleeps 100ms between polls (server-context.ts line 126). -/
def POLL_INTERVAL_MS : Nat := 100

/-- Upper bound on poll-loop entries: each iteration sleeps 100ms, so at
most `2000 / 100 = 20` iterations pass the deadline guard; 21 covers the
final guard failure. -/
def POLL_FUEL : Nat := 21

/-- The `/json/new` creation endpoint for a CDP port and encoded url. -/
def newTabEndpoint (cdpPort : Nat) (encoded : String) : String :=
  "http://127.0.0.1:" ++ toString cdpPort ++ "/json/new?" ++ encoded

/-- Build the returned tab from a `/json/new` body (server-context.ts lines
151-158): fail when `created.id` is missing or empty (JS `!created.id`),
else default title to `""` and url to the requested one. -/
def tabFromCdpTarget (t : CdpTarget) (fallbackUrl : String) :
    Except String BrowserTab :=
  match t.id with
  | none => .error "Failed to open tab (missing id)"
  | some i =>
    if i == "" then .error "Failed to open tab (missing id)"
    else .ok ⟨i, t.title.getD "", t.url.getD fallbackUrl,
              t.webSocketDebuggerUrl, t.type⟩

/-- The discovery poll loop of `openTab` (server-context.ts lines 121-127):
while `Date.now()` is before the deadline, list tabs and return the one whose
id matches; otherwise sleep 100ms and retry. `none` means the deadline
elapsed without finding the tab. -/
def pollForTab (env : OpenTabEnv) (tid : String) (deadline : Nat) :
    Nat → Nat → Option BrowserTab
  | 0, _ => none
  | fuel + 1, k =>
    if env.timeAt (k + 1) < deadline then
      match (env.listings k).find? (fun t => t.targetId == tid) with
      | some t => some t
      | none => pollForTab env tid deadline fuel (k + 1)
    else none

/-- The REST fallback of `openTab` (server-context.ts lines 131-158): `PUT`
the creation endpoint; on HTTP 405 retry the same URL with a plain `GET`;
any other `PUT` failure, or a `GET` failure, propagates. -/
def openTabRest (env : OpenTabEnv) (cdpPort : Nat) (url : String) :
    List TabCall × Except String BrowserTab :=
  let endpoint := newTabEndpoint cdpPort env.encodedUrl
  match env.putResult with
  | .ok t => ([.putNew endpoint], tabFromCdpTarget t url)
  | .failed => ([.putNew endpoint], .error "PUT /json/new failed")
  | .http405 =>
    match env.getResult with
    | some t => ([.putNew endpoint, .getNew endpoint], tabFromCdpTarget t url)
    | none => ([.putNew endpoint, .getNew endpoint],
               .error "GET /json/new failed")

/-- The minimal stub tab returned when the poll deadline elapses
(server-context.ts line 128). -/
def stubTab (tid url : String) : BrowserTab := ⟨tid, "", url, none, some "page"⟩

/-- `openTab` (server-context.ts lines 111-159): attempt the raw CDP
target-creation call first; when it yields a (truthy) id, poll the listing
for the full descriptor and fall back to the stub on deadline; when it
failed or yielded an empty id (JS falsiness), take the REST path. Returns
the ordered call trace alongside the result. -/
def openTab (env : OpenTabEnv) (cdpPort : Nat) (url : String) :
    List TabCall × Except String BrowserTab :=
  match env.cdpCreate with
  | some tid =>
    if tid == "" then
      let rest := openTabRest env cdpPort url
      (.rawCreate url :: rest.1, rest.2)
    else
      let deadline := env.timeAt 0 + POLL_DEADLINE_MS
      match pollForTab env tid deadline POLL_FUEL 0 with
      | some t => ([.rawCreate url], .ok t)
      | none => ([.rawCreate url], .ok (stubTab tid url))
  | none =>
    let rest := openTabRest env cdpPort url
    (.rawCreate url :: rest.1, rest.2)

theorem charsPrefix_self (l : List Char) : charsPrefix l l = true := by
  induction l with
  | nil => rfl
  | cons a as ih => simp [charsPrefix, ih]

theorem strStartsWith_self (s : String) : strStartsWith s s = true :=
  charsPrefix_self s.data

theorem strStartsWith_of_beq {a b : String} (h : (a == b) = true) :
    strStartsWith a b = true := by
  cases eq_of_beq h
  exact strStartsWith_self a

/-- C1: Target resolution is deterministic for a fixed tab listing: an exact
id match returns the id of that tab regardless of the other tabs present;
otherwise a unique prefix match returns the id of that tab; two or more prefix
matches yield the ambiguity result; zero prefix matches yield the not-found
result; and an absent identifier selects the first tab in listing order. -/
theorem c1_target_resolution_deterministic (id : String)
    (tabs : List BrowserTab) :
    (tabs.any (fun t => t.targetId == id) = true →
      resolveTargetIdFromTabs id tabs = .ok id) ∧
    (tabs.any (fun t => t.targetId == id) = false →
      ∀ t, tabs.filter (fun t' => strStartsWith t'.targetId id) = [t] →
        resolveTargetIdFromTabs id tabs = .ok t.targetId) ∧
    (tabs.any (fun t => t.targetId == id) = false →
      2 ≤ (tabs.filter (fun t' => strStartsWith t'.targetId id)).length →
      resolveTargetIdFromTabs id tabs = .ambiguous) ∧
    (tabs.filter (fun t' => strStartsWith t'.targetId id) = [] →
      resolveTargetIdFromTabs id tabs = .notFound) ∧
    (∀ t rest, chooseTab none (t :: rest) = .tab t) := by
  refine ⟨?_, ?_, ?_, ?_, ?_⟩
  · intro h
    simp [resolveTargetIdFromTabs, h]
  · intro hany t hf
    simp [resolveTargetIdFromTabs, hany, hf]
  · intro hany hlen
    rcases hf : tabs.filter (fun t' => strStartsWith t'.targetId id) with
      _ | ⟨a, _ | ⟨b, l⟩⟩
    · simp [hf] at hlen
    · simp [hf] at hlen
    · simp [resolveTargetIdFromTabs, hany, hf]
  · intro hf
    have hany : tabs.any (fun t => t.targetId == id) = false := by
      rcases h : tabs.any (fun t => t.targetId == id) with _ | _
      · rfl
      · obtain ⟨t, ht, hbeq⟩ := List.any_eq_true.mp h
        have hmem : t ∈ tabs.filter (fun t' => strStartsWith t'.targetId id) :=
          List.mem_filter.mpr ⟨ht, strStartsWith_of_beq hbeq⟩
        rw [hf] at hmem
        exact absurd hmem (List.not_mem_nil t)
    simp [resolveTargetIdFromTabs, hany, hf]
  · intro t rest
    rfl

/-- C1 witness: the example listing of the spec (`abcd1234`, `abce9999`):
resolving `abc` is ambiguous, `abcd` resolves to `abcd1234`, `zzz` is
not found, and an absent identifier picks the first tab. -/
theorem c1_witness :
    resolveTargetIdFromTabs "abc"
        [⟨"abcd1234", "Tab", "https://example.com", some "ws://a", some "page"⟩,
         ⟨"abce9999", "Other", "https://other", some "ws://b", some "page"⟩] =
      .ambiguous ∧
    resolveTargetIdFromTabs "abcd"
        [⟨"abcd1234", "Tab", "https://example.com", some "ws://a", some "page"⟩,
         ⟨"abce9999", "Other", "https://other", some "ws://b", some "page"⟩] =
      .ok "abcd1234" ∧
    resolveTargetIdFromTabs "zzz"
        [⟨"abcd1234", "Tab", "https://example.com", some "ws://a", some "page"⟩,
         ⟨"abce9999", "Other", "https://other", some "ws://b", some "page"⟩] =
      .notFound ∧
    chooseTab none
        [⟨"abcd1234", "Tab", "https://example.com", some "ws://a", some "page"⟩,
         ⟨"abce9999", "Other", "https://other", some "ws://b", some "page"⟩] =
      .tab ⟨"abcd1234", "Tab", "https://example.com", some "ws://a", some "page"⟩ :=
  ⟨(c1_target_resolution_deterministic "abc" _).2.2.1 (by decide) (by decide),
   (c1_target_resolution_deterministic "abcd" _).2.1 (by decide)
     ⟨"abcd1234", "Tab", "https://example.com", some "ws://a", some "page"⟩
     (by decide),
   (c1_target_resolution_deterministic "zzz" _).2.2.2.1 (by decide),
   (c1_target_resolution_deterministic "" []).2.2.2.2
     ⟨"abcd1234", "Tab", "https://example.com", some "ws://a", some "page"⟩
     [⟨"abce9999", "Other", "https://other", some "ws://b", some "page"⟩]⟩

theorem onConsoleMessage_console_le (s : PageState)
    (m : BrowserConsoleMessage)
    (h : s.console.length ≤ MAX_CONSOLE_MESSAGES) :
    (onConsoleMessage s m).console.length ≤ MAX_CONSOLE_MESSAGES := by
  simp only [onConsoleMessage]
  split
  · simpa using h
  next hlt => omega

theorem onRequest_network_le (s : PageState) (reqId : Nat)
    (url method : String) (resourceType : Option String) (timestamp : String)
    (h : s.network.length ≤ MAX_NETWORK_REQUESTS) :
    (onRequest s reqId url method resourceType timestamp).network.length ≤
      MAX_NETWORK_REQUESTS := by
  simp only [onRequest]
  split
  · simpa using h
  next hlt => omega

theorem annotateSerial_length (network : List (Nat × BrowserNetworkRequest))
    (serial : Nat) (f : BrowserNetworkRequest → BrowserNetworkRequest) :
    (annotateSerial network serial f).length = network.length :=
  List.length_map _ _

theorem pageStep_caps (s : PageState) (e : PageEvent)
    (h : s.console.length ≤ MAX_CONSOLE_MESSAGES ∧
      s.network.length ≤ MAX_NETWORK_REQUESTS) :
    (pageStep s e).console.length ≤ MAX_CONSOLE_MESSAGES ∧
      (pageStep s e).network.length ≤ MAX_NETWORK_REQUESTS := by
  rcases e with m | ⟨reqId, url, method, resourceType, timestamp⟩ |
    ⟨reqId, response⟩ | ⟨reqId, failureText⟩
  · exact ⟨onConsoleMessage_console_le s m h.1, by
      simpa [pageStep, onConsoleMessage] using h.2⟩
  · exact ⟨by simpa [pageStep, onRequest] using h.1,
      onRequest_network_le s reqId url method resourceType timestamp h.2⟩
  · refine ⟨?_, ?_⟩ <;> simp only [pageStep, onRequestFinished]
    · split <;> simpa using h.1
    · split
      · simpa using h.2
      · split <;> simp [annotateSerial_length, h.2]
  · refine ⟨?_, ?_⟩ <;> simp only [pageStep, onRequestFailed]
    · split <;> simpa using h.1
    · split
      · simpa using h.2
      · simp [annotateSerial_length, h.2]

theorem foldl_pageStep_caps (events : List PageEvent) :
    ∀ s : PageState,
      s.console.length ≤ MAX_CONSOLE_MESSAGES ∧
        s.network.length ≤ MAX_NETWORK_REQUESTS →
      (events.foldl pageStep s).console.length ≤ MAX_CONSOLE_MESSAGES ∧
        (events.foldl pageStep s).network.length ≤ MAX_NETWORK_REQUESTS := by
  induction events with
  | nil => intro s h; simpa using h
  | cons e rest ih => intro s h; exact ih (pageStep s e) (pageStep_caps s e h)

/-- C2: after any event sequence the console history holds at most 500
entries and the network history at most 1000; an append at the cap evicts
the oldest entry first (FIFO), and below the cap appends keep all existing
entries. -/
theorem c2_page_history_caps :
    (∀ events : List PageEvent,
      (runPageEvents events).console.length ≤ MAX_CONSOLE_MESSAGES ∧
        (runPageEvents events).network.length ≤ MAX_NETWORK_REQUESTS) ∧
    (∀ (s : PageState) (m : BrowserConsoleMessage),
      s.console.length < MAX_CONSOLE_MESSAGES →
      (onConsoleMessage s m).console = s.console ++ [m]) ∧
    (∀ (s : PageState) (m : BrowserConsoleMessage),
      s.console.length = MAX_CONSOLE_MESSAGES →
      (onConsoleMessage s m).console = s.console.tail ++ [m]) ∧
    (∀ (s : PageState) (reqId : Nat) (url method : String)
        (resourceType : Option String) (timestamp : String),
      s.network.length < MAX_NETWORK_REQUESTS →
      (onRequest s reqId url method resourceType timestamp).network =
        s.network ++ [(s.nextSerial, mkRequestEntry url method resourceType timestamp)]) ∧
    (∀ (s : PageState) (reqId : Nat) (url method : String)
        (resourceType : Option String) (timestamp : String),
      s.network.length = MAX_NETWORK_REQUESTS →
      (onRequest s reqId url method resourceType timestamp).network =
        s.network.tail ++ [(s.nextSerial, mkRequestEntry url method resourceType timestamp)]) := by
  refine ⟨?_, ?_, ?_, ?_, ?_⟩
  · intro events
    exact foldl_pageStep_caps events initialPageState (by simp [initialPageState])
  · intro s m h
    simp only [onConsoleMessage]
    rw [if_neg (by simp; omega)]
  · intro s m h
    have hne : s.console ≠ [] := by
      intro hnil
      rw [hnil] at h
      simp [MAX_CONSOLE_MESSAGES] at h
    simp only [onConsoleMessage]
    rw [if_pos (by simp [h])]
    cases hc : s.console with
    | nil => exact absurd hc hne
    | cons a l => simp [hc]
  · intro s reqId url method resourceType timestamp h
    simp only [onRequest]
    rw [if_neg (by simp; omega)]
  · intro s reqId url method resourceType timestamp h
    have hne : s.network ≠ [] := by
      intro hnil
      rw [hnil] at h
      simp [MAX_NETWORK_REQUESTS] at h
    simp only [onRequest]
    rw [if_pos (by simp [h])]
    cases hc : s.network with
    | nil => exact absurd hc hne
    | cons a l => simp [hc]

/-- C2 witness: a console history at the 500 cap evicts its oldest entry on
append, and a network history at the 1000 cap does the same. -/
theorem c2_witness :
    (onConsoleMessage
        ⟨List.replicate 500 ⟨"log", "x", "t0", none⟩, [], [], 0⟩
        ⟨"error", "y", "t1", none⟩).console =
      (List.replicate 500
          (⟨"log", "x", "t0", none⟩ : BrowserConsoleMessage)).tail ++
        [⟨"error", "y", "t1", none⟩] ∧
    (onRequest
        ⟨[], List.replicate 1000 (0, mkRequestEntry "u" "GET" none "t0"),
          [], 5⟩ 7 "u2" "POST" none "t2").network =
      (List.replicate 1000
          ((0 : Nat), mkRequestEntry "u" "GET" none "t0")).tail ++
        [(5, mkRequestEntry "u2" "POST" none "t2")] :=
  ⟨c2_page_history_caps.2.2.1 _ _
     (by simp only [List.length_replicate, MAX_CONSOLE_MESSAGES]),
   c2_page_history_caps.2.2.2.2 _ 7 "u2" "POST" none "t2"
     (by simp only [List.length_replicate, MAX_NETWORK_REQUESTS])⟩

/-- C3: connection establishment is single-flight per endpoint: the module
keeps at most one connection record per endpoint; a call arriving while an
attempt is in flight (and no matching cached record exists) joins that
attempt without starting a new one; and two concurrent callers for the same
endpoint starting from the idle state cause exactly one underlying
connection, which both then share once resolved. -/
theorem c3_connect_single_flight :
    (∀ (s : ConnState) (e : String), connectionRecordsFor s e ≤ 1) ∧
    (∀ (s : ConnState) (e : String),
      (s.cached == some e) = false → s.connecting = true →
      connectBrowser s e = (s, .joinedInflight)) ∧
    (∀ e : String,
      (connectBrowser initialConnState e).2 = .startedAttempt ∧
      (connectBrowser (connectBrowser initialConnState e).1 e).2 =
        .joinedInflight ∧
      (connectBrowser (connectBrowser initialConnState e).1 e).1.connectCalls
        = 1 ∧
      (connectResolve
          (connectBrowser (connectBrowser initialConnState e).1 e).1).cached =
        some e) := by
  refine ⟨?_, ?_, ?_⟩
  · intro s e
    simp only [connectionRecordsFor]
    split <;> omega
  · intro s e hcache hconn
    simp [connectBrowser, hcache, hconn]
  · intro e
    exact ⟨rfl, rfl, rfl, rfl⟩

/-- C3 witness: with an attempt in flight for an endpoint and nothing
cached, a second call for that endpoint joins the in-flight attempt and
leaves the state (in particular the call count) unchanged. -/
theorem c3_witness :
    connectBrowser ⟨none, true, some "http://127.0.0.1:9222", 1⟩
        "http://127.0.0.1:9222" =
      (⟨none, true, some "http://127.0.0.1:9222", 1⟩, .joinedInflight) :=
  c3_connect_single_flight.2.1 _ "http://127.0.0.1:9222" (by decide) rfl

/-- C4 counterexample: stopping a tracked browser with a cached automation
connection returns `{stopped: true}` and clears the handle, but the cached
connection record is still present afterwards — the claim that no cached
record remains after `stop()` is false on this code. -/
theorem c4_counterexample :
    stopRunningBrowser
        ⟨some ⟨18800, 9222, some ⟨123⟩, false⟩, some "http://127.0.0.1:9222"⟩ =
      .ok (true,
        ⟨some ⟨18800, 9222, none, false⟩, some "http://127.0.0.1:9222"⟩) ∧
    (⟨some ⟨18800, 9222, none, false⟩, some "http://127.0.0.1:9222"⟩ :
        ControlPlaneState).pwCached ≠ none :=
  ⟨rfl, by decide⟩

/-- C4 amended: `stop()` with a tracked process terminates it and clears the
handle but leaves the cached automation-channel connection untouched; the
cached record is torn down only by the full control-server shutdown path
(`stopBrowserControlServer`), after which no cached record remains. -/
theorem c4_stop_keeps_cached_connection :
    (∀ (st : ControlPlaneState) (s : BrowserServerState) (r : RunningChrome),
      st.serverState = some s → s.running = some r →
      stopRunningBrowser st =
        .ok (true, { st with serverState := some { s with running := none } }) ∧
      ({ st with serverState := some { s with running := none } } :
          ControlPlaneState).pwCached = st.pwCached) ∧
    (∀ (st : ControlPlaneState) (s : BrowserServerState),
      st.serverState = some s →
      (stopBrowserControlServer st).pwCached = none) := by
  refine ⟨?_, ?_⟩
  · intro st s r h1 h2
    exact ⟨by simp [stopRunningBrowser, h1, h2], rfl⟩
  · intro st s h
    rcases hr : s.running with _ | r <;>
      simp [stopBrowserControlServer, stopRunningBrowser,
        closePlaywrightBrowserConnection, h, hr]

/-- C4 witness: a concrete stop run keeping the cached record, and a full
server shutdown clearing it. -/
theorem c4_witness :
    stopRunningBrowser ⟨some ⟨18800, 9222, some ⟨123⟩, true⟩, some "ep"⟩ =
      .ok (true, ⟨some ⟨18800, 9222, none, true⟩, some "ep"⟩) ∧
    (stopBrowserControlServer
        ⟨some ⟨18800, 9222, some ⟨123⟩, true⟩, some "ep"⟩).pwCached = none :=
  ⟨(c4_stop_keeps_cached_connection.1
      ⟨some ⟨18800, 9222, some ⟨123⟩, true⟩, some "ep"⟩ _ _ rfl rfl).1,
   c4_stop_keeps_cached_connection.2
     ⟨some ⟨18800, 9222, some ⟨123⟩, true⟩, some "ep"⟩ _ rfl⟩

/-- C6: with the server state present, when the probe fails and attach-only
is configured, `ensureBrowserAvailable` fails with the attach-only violation
and in particular does not launch; when the probe succeeds it is a no-op. -/
theorem c6_attach_only_no_launch :
    ∀ (st : ControlPlaneState) (s : BrowserServerState)
      (probe : Nat → Nat → Bool),
      st.serverState = some s →
      ((probe s.cdpPort defaultReachableTimeoutMs = false →
        s.attachOnly = true →
        ensureBrowserAvailable st probe = .error .attachOnlyViolation ∧
        ensureBrowserAvailable st probe ≠ .ok .launched) ∧
       (probe s.cdpPort defaultReachableTimeoutMs = true →
        ensureBrowserAvailable st probe = .ok .noop)) := by
  intro st s probe h
  refine ⟨fun hp ha => ?_, fun hp => ?_⟩
  · have : ensureBrowserAvailable st probe = .error .attachOnlyViolation := by
      simp [ensureBrowserAvailable, h, hp, ha]
    exact ⟨this, by simp [this]⟩
  · simp [ensureBrowserAvailable, h, hp]

/-- C6 witness: with attach-only configured and an always-failing probe the
ensure call fails with the attach-only violation; with a succeeding probe it
is a no-op. -/
theorem c6_witness :
    ensureBrowserAvailable ⟨some ⟨18800, 9222, none, true⟩, none⟩
        (fun _ _ => false) = .error .attachOnlyViolation ∧
    ensureBrowserAvailable ⟨some ⟨18800, 9222, none, true⟩, none⟩
        (fun _ _ => true) = .ok .noop :=
  ⟨((c6_attach_only_no_launch ⟨some ⟨18800, 9222, none, true⟩, none⟩ _
      (fun _ _ => false) rfl).1 rfl rfl).1,
   (c6_attach_only_no_launch ⟨some ⟨18800, 9222, none, true⟩, none⟩ _
      (fun _ _ => true) rfl).2 rfl⟩

/-- C7: with the server state present, `stop()` with no tracked process
returns `{stopped: false}` and leaves the state unchanged without an error;
with a tracked process it returns `{stopped: true}` and clears the handle. -/
theorem c7_stop_idempotent :
    ∀ (st : ControlPlaneState) (s : BrowserServerState),
      st.serverState = some s →
      ((s.running = none → stopRunningBrowser st = .ok (false, st)) ∧
       (∀ r, s.running = some r →
         stopRunningBrowser st =
           .ok (true,
             { st with serverState := some { s with running := none } }))) := by
  intro st s h
  refine ⟨fun hr => ?_, fun r hr => ?_⟩ <;>
    simp [stopRunningBrowser, h, hr]

/-- C7 witness: a concrete idle stop returning `{stopped: false}` unchanged
and a concrete tracked stop returning `{stopped: true}` with the handle
cleared. -/
theorem c7_witness :
    stopRunningBrowser ⟨some ⟨18800, 9222, none, false⟩, none⟩ =
      .ok (false, ⟨some ⟨18800, 9222, none, false⟩, none⟩) ∧
    stopRunningBrowser ⟨some ⟨18800, 9222, some ⟨123⟩, false⟩, none⟩ =
      .ok (true, ⟨some ⟨18800, 9222, none, false⟩, none⟩) :=
  ⟨(c7_stop_idempotent ⟨some ⟨18800, 9222, none, false⟩, none⟩ _ rfl).1 rfl,
   (c7_stop_idempotent ⟨some ⟨18800, 9222, some ⟨123⟩, false⟩, none⟩ _ rfl).2
     ⟨123⟩ rfl⟩

/-- C8 counterexample: before the server state is initialized, `reachable`
does not return a boolean — `state()` throws `"Browser server not started"`
— so the claim that it never throws for every control-plane state is false
on this code. -/
theorem c8_counterexample :
    isReachable ⟨none, none⟩ defaultReachableTimeoutMs (fun _ _ => true) =
      .error .notStarted := rfl

/-- C8 amended: once the server state is initialized, `reachable(timeoutMs)`
returns the probe result as a boolean for every timeout and never throws; with the
state uninitialized it throws the not-started error. -/
theorem c8_reachable_boolean_when_started :
    ∀ (st : ControlPlaneState) (s : BrowserServerState) (timeoutMs : Nat)
      (probe : Nat → Nat → Bool),
      st.serverState = some s →
      isReachable st timeoutMs probe = .ok (probe s.cdpPort timeoutMs) := by
  intro st s timeoutMs probe h
  simp [isReachable, h]

/-- C8 witness: a concrete initialized state probes to a boolean result. -/
theorem c8_witness :
    isReachable ⟨some ⟨18800, 9222, none, false⟩, none⟩ 300
      (fun _ _ => true) = .ok true :=
  c8_reachable_boolean_when_started ⟨some ⟨18800, 9222, none, false⟩, none⟩
    _ 300 (fun _ _ => true) rfl

/-- C9: the exit observer clears the tracked handle only when the currently
tracked pid equals the pid of the exited process: a differing pid leaves the
state untouched (so a late exit of a superseded process never clears a newer
handle), a matching pid clears the handle, and any state change implies the
pids matched. -/
theorem c9_exit_observer_pid_guard :
    (∀ (p : Nat) (st : ControlPlaneState) (s : BrowserServerState)
        (r : RunningChrome),
      st.serverState = some s → s.running = some r → r.pid ≠ p →
      exitObserver p st = st) ∧
    (∀ (p : Nat) (st : ControlPlaneState) (s : BrowserServerState)
        (r : RunningChrome),
      st.serverState = some s → s.running = some r → r.pid = p →
      exitObserver p st =
        { st with serverState := some { s with running := none } }) ∧
    (∀ (p : Nat) (st : ControlPlaneState),
      exitObserver p st ≠ st →
      ∃ s r, st.serverState = some s ∧ s.running = some r ∧ r.pid = p) := by
  refine ⟨?_, ?_, ?_⟩
  · intro p st s r h1 h2 h3
    have hb : (r.pid == p) = false := beq_eq_false_iff_ne.mpr h3
    simp [exitObserver, h1, h2, hb]
  · intro p st s r h1 h2 h3
    have hb : (r.pid == p) = true := beq_iff_eq.mpr h3
    simp [exitObserver, h1, h2, hb]
  · intro p st hne
    rcases h1 : st.serverState with _ | s
    · exact absurd (by simp [exitObserver, h1]) hne
    rcases h2 : s.running with _ | r
    · exact absurd (by simp [exitObserver, h1, h2]) hne
    rcases hb : r.pid == p with _ | _
    · exact absurd (by simp [exitObserver, h1, h2, hb]) hne
    · exact ⟨s, r, rfl, h2, beq_iff_eq.mp hb⟩

/-- C9 witness: an exit event for pid 999 leaves a handle tracking pid 123
untouched, while an exit event for pid 123 clears it. -/
theorem c9_witness :
    exitObserver 999 ⟨some ⟨18800, 9222, some ⟨123⟩, false⟩, none⟩ =
      ⟨some ⟨18800, 9222, some ⟨123⟩, false⟩, none⟩ ∧
    exitObserver 123 ⟨some ⟨18800, 9222, some ⟨123⟩, false⟩, none⟩ =
      ⟨some ⟨18800, 9222, none, false⟩, none⟩ :=
  ⟨c9_exit_observer_pid_guard.1 999
      ⟨some ⟨18800, 9222, some ⟨123⟩, false⟩, none⟩ _ _ rfl rfl (by decide),
   c9_exit_observer_pid_guard.2.1 123
      ⟨some ⟨18800, 9222, some ⟨123⟩, false⟩, none⟩ _ _ rfl rfl rfl⟩

/-- C10 counterexample: with an absent identifier, an empty first listing
and a refreshed listing that is still empty, `ensureTabAvailable` opens the
blank tab but then fails with the tab-not-found error — so the claim that
every absent-identifier call on a reachable browser returns a tab is false
on this code. -/
theorem c10_counterexample :
    ensureTabAvailable none [] [] = (true, .error .notFound) := rfl

/-- C10 amended: `ensureTabAvailable` opens an `about:blank` tab itself
exactly when the first listing is empty, and with an absent identifier it
returns the first tab of the refreshed listing whenever that listing is
non-empty and its first tab carries a channel address; when the refreshed
listing is still empty it fails with the tab-not-found error. -/
theorem c10_ensure_tab_blank_fallback :
    ∀ tabs1 tabs2 : List BrowserTab,
      (∀ targetId, tabs1 = [] →
        (ensureTabAvailable targetId tabs1 tabs2).1 = true) ∧
      (∀ targetId t rest, tabs1 = t :: rest →
        (ensureTabAvailable targetId tabs1 tabs2).1 = false) ∧
      (∀ t rest, tabs2 = t :: rest → (t.wsUrl.getD "" == "") = false →
        (ensureTabAvailable none tabs1 tabs2).2 = .ok t) ∧
      (tabs2 = [] →
        (ensureTabAvailable none tabs1 tabs2).2 = .error .notFound) := by
  intro tabs1 tabs2
  refine ⟨?_, ?_, ?_, ?_⟩
  · intro targetId h
    simp [ensureTabAvailable, h]
  · intro targetId t rest h
    simp [ensureTabAvailable, h]
  · intro t rest h hw
    simp [ensureTabAvailable, ensureTabResolve, chooseTab, h, hw]
  · intro h
    simp [ensureTabAvailable, ensureTabResolve, chooseTab, h]

/-- C10 witness: an empty first listing opens the blank tab and the first
tab of the refreshed listing is returned. -/
theorem c10_witness :
    (ensureTabAvailable none []
        [⟨"blank1", "", "about:blank", some "ws://x", some "page"⟩]).1 =
      true ∧
    (ensureTabAvailable none []
        [⟨"blank1", "", "about:blank", some "ws://x", some "page"⟩]).2 =
      .ok ⟨"blank1", "", "about:blank", some "ws://x", some "page"⟩ :=
  ⟨(c10_ensure_tab_blank_fallback []
      [⟨"blank1", "", "about:blank", some "ws://x", some "page"⟩]).1 none rfl,
   (c10_ensure_tab_blank_fallback []
      [⟨"blank1", "", "about:blank", some "ws://x", some "page"⟩]).2.2.1
     ⟨"blank1", "", "about:blank", some "ws://x", some "page"⟩ [] rfl
     (by decide)⟩

theorem pollForTab_succ (env : OpenTabEnv) (tid : String)
    (deadline fuel k : Nat) :
    pollForTab env tid deadline (fuel + 1) k =
      if env.timeAt (k + 1) < deadline then
        match (env.listings k).find? (fun t => t.targetId == tid) with
        | some t => some t
        | none => pollForTab env tid deadline fuel (k + 1)
      else none := rfl

theorem pollForTab_none (env : OpenTabEnv) (tid : String) (deadline : Nat)
    (h : ∀ j, (env.listings j).find? (fun t => t.targetId == tid) = none) :
    ∀ fuel k, pollForTab env tid deadline fuel k = none := by
  intro fuel
  induction fuel with
  | zero => intro k; rfl
  | succ n ih =>
    intro k
    rw [pollForTab_succ, h k]
    simp [ih (k + 1)]

/-- C5: `openTab` attempts the raw CDP creation call first; when it failed,
the fallback issues a PUT to the creation endpoint and on HTTP 405 retries
the same URL with a GET, returning a descriptor with the (non-empty) created
id and failing when the id is missing or empty; when the raw call succeeded
with a non-empty id, the listing is polled (at 100ms intervals for up to
2000ms) and a tab carrying that id is returned when discovered, while a poll
that never finds the id ends in the minimal stub tab (that id, the requested
url, type "page") rather than a failure. -/
theorem c5_open_tab_protocol :
    ∀ (env : OpenTabEnv) (cdpPort : Nat) (url : String),
      ((openTab env cdpPort url).1.head? = some (.rawCreate url)) ∧
      (∀ t i, env.cdpCreate = none → env.putResult = .ok t → t.id = some i →
        (i == "") = false →
        openTab env cdpPort url =
          ([.rawCreate url, .putNew (newTabEndpoint cdpPort env.encodedUrl)],
           .ok ⟨i, t.title.getD "", t.url.getD url, t.webSocketDebuggerUrl,
                t.type⟩)) ∧
      (∀ t i, env.cdpCreate = none → env.putResult = .http405 →
        env.getResult = some t → t.id = some i → (i == "") = false →
        openTab env cdpPort url =
          ([.rawCreate url, .putNew (newTabEndpoint cdpPort env.encodedUrl),
            .getNew (newTabEndpoint cdpPort env.encodedUrl)],
           .ok ⟨i, t.title.getD "", t.url.getD url, t.webSocketDebuggerUrl,
                t.type⟩)) ∧
      (∀ t, env.cdpCreate = none → env.putResult = .ok t →
        (t.id = none ∨ t.id = some "") →
        (openTab env cdpPort url).2 = .error "Failed to open tab (missing id)") ∧
      (∀ tid, env.cdpCreate = some tid → (tid == "") = false →
        (∀ j, (env.listings j).find? (fun t => t.targetId == tid) = none) →
        openTab env cdpPort url = ([.rawCreate url], .ok (stubTab tid url))) ∧
      (∀ tid t, env.cdpCreate = some tid → (tid == "") = false →
        env.timeAt 1 < env.timeAt 0 + POLL_DEADLINE_MS →
        (env.listings 0).find? (fun t' => t'.targetId == tid) = some t →
        openTab env cdpPort url = ([.rawCreate url], .ok t)) := by
  intro env cdpPort url
  refine ⟨?_, ?_, ?_, ?_, ?_, ?_⟩
  · rcases h : env.cdpCreate with _ | tid
    · rcases hp : env.putResult with t | _ | _ <;>
        rcases hg : env.getResult with _ | t' <;>
        simp [openTab, openTabRest, h, hp, hg]
    · rcases hz : tid == "" with _ | _
      · rcases hpoll : pollForTab env tid (env.timeAt 0 + POLL_DEADLINE_MS)
          POLL_FUEL 0 with _ | t <;>
          simp [openTab, h, hz, hpoll]
      · rcases hp : env.putResult with t | _ | _ <;>
          rcases hg : env.getResult with _ | t' <;>
          simp [openTab, openTabRest, h, hz, hp, hg]
  · intro t i h1 h2 h3 h4
    simp [openTab, openTabRest, tabFromCdpTarget, h1, h2, h3, h4]
  · intro t i h1 h2 h3 h4 h5
    simp [openTab, openTabRest, tabFromCdpTarget, h1, h2, h3, h4, h5]
  · intro t h1 h2 h3
    rcases h3 with h3 | h3 <;>
      simp [openTab, openTabRest, tabFromCdpTarget, h1, h2, h3]
  · intro tid h1 h2 h3
    have hpoll := pollForTab_none env tid (env.timeAt 0 + POLL_DEADLINE_MS)
      h3 POLL_FUEL 0
    simp [openTab, h1, h2, hpoll]
  · intro tid t h1 h2 h3 h4
    have hpoll : pollForTab env tid (env.timeAt 0 + POLL_DEADLINE_MS)
        POLL_FUEL 0 = some t := by
      rw [show POLL_FUEL = 20 + 1 from rfl, pollForTab_succ, if_pos h3, h4]
    simp [openTab, h1, h2, hpoll]

/-- C5 witness: a run whose raw creation fails and whose PUT gets HTTP 405
falls back to a GET on the same URL and returns the created descriptor, and
a run whose raw creation yields an id that never appears in the listing
returns the stub tab. -/
theorem c5_witness :
    openTab
        ⟨none, fun _ => [], fun _ => 0, .http405,
         some ⟨some "newtab1", none, none, some "ws://n", some "page"⟩,
         "about%3Ablank"⟩ 9222 "about:blank" =
      ([.rawCreate "about:blank", .putNew (newTabEndpoint 9222 "about%3Ablank"),
        .getNew (newTabEndpoint 9222 "about%3Ablank")],
       .ok ⟨"newtab1", "", "about:blank", some "ws://n", some "page"⟩) ∧
    openTab ⟨some "abcd1234", fun _ => [], fun k => 100 * k, .failed, none, "u"⟩
        9222 "https://example.com" =
      ([.rawCreate "https://example.com"],
       .ok (stubTab "abcd1234" "https://example.com")) :=
  ⟨(c5_open_tab_protocol
      ⟨none, fun _ => [], fun _ => 0, .http405,
       some ⟨some "newtab1", none, none, some "ws://n", some "page"⟩,
       "about%3Ablank"⟩ 9222 "about:blank").2.2.1
     ⟨some "newtab1", none, none, some "ws://n", some "page"⟩ "newtab1"
     rfl rfl rfl rfl (by decide),
   (c5_open_tab_protocol
      ⟨some "abcd1234", fun _ => [], fun k => 100 * k, .failed, none, "u"⟩
      9222 "https://example.com").2.2.2.2.1 "abcd1234"
     rfl (by decide) (fun _ => rfl)⟩

end Openclaw
